import Mathlib

/-!
Verification of the ComfyUI-Minimap-Extension registrar.

The repository's only source file is `src/__init__.py`:

```
"""
Minimap extension for ComfyUI.
...
"""

WEB_DIRECTORY = "."
```

We embed the Python module body as a list of statements executed over a
binding environment, threaded through an explicit model of the external
world (environment variables, CLI arguments, persisted state, filesystem),
so that load-time safety, frame conditions and noninterference can be
stated.  Path resolution is modelled at the level of `/`-separated
components, matching POSIX semantics of `os.path.join` and the treatment
of the `.` component.
-/

namespace ComfyMinimap

/-- Python values that occur in the module body of `src/__init__.py`:
only string literals appear there. -/
inductive PyValue where
  | str : String → PyValue
  deriving DecidableEq

/-- The statements of the module body: a module docstring (which CPython
binds to `__doc__`) and a simple assignment of a literal to a name. -/
inductive Stmt where
  | docstring : String → Stmt
  | assign : String → PyValue → Stmt
  deriving DecidableEq

/-- The docstring of `src/__init__.py` (lines 1–5). -/
def moduleDocstring : String :=
  "\nMinimap extension for ComfyUI.\n\nThis repository contains a custom ComfyUI extension that provides a minimap overlay. Place this directory inside your ComfyUI `custom_nodes` folder to enable the minimap. The interactive behaviour is implemented in `minimap.js`.\n"

/-- The module body of `src/__init__.py`: the docstring, then the single
assignment `WEB_DIRECTORY = "."` (line 7). -/
def moduleBody : List Stmt :=
  [Stmt.docstring moduleDocstring,
   Stmt.assign "WEB_DIRECTORY" (PyValue.str ".")]

/-- Name→value bindings of a Python module, in insertion order
(as in a CPython module `__dict__`). -/
abbrev Bindings := List (String × PyValue)

/-- A model of the filesystem the host process sees: which component
paths are directories, which are readable, which files exist. -/
structure FileSystem where
  isDir : List (List Char) → Bool
  isReadable : List (List Char) → Bool
  fileExists : List (List Char) → Bool

/-- The external world visible to a loading Python module: environment
variables, command-line arguments, persisted state and the filesystem.
The module body of `src/__init__.py` reads and writes none of these. -/
structure Env where
  envVars : List (String × String)
  cliArgs : List String
  persisted : List (String × String)
  fs : FileSystem

/-- Errors a Python statement could raise at load time. -/
inductive LoadError where
  | raised : String → LoadError
  deriving DecidableEq

/-- Assign a value to a name, Python-dict style: overwrite an existing
binding in place, otherwise append at the end. -/
def setBinding : Bindings → String → PyValue → Bindings
  | [], n, v => [(n, v)]
  | (m, w) :: rest, n, v =>
    if m = n then (n, v) :: rest else (m, w) :: setBinding rest n v

/-- Read a name from the bindings. -/
def readBinding : Bindings → String → Option PyValue
  | [], _ => none
  | (m, w) :: rest, n => if m = n then some w else readBinding rest n

/-- Execute one statement of the module body.  A docstring binds
`__doc__`; an assignment of a literal binds the name.  Neither form can
raise and neither touches the external world, which the definition
reflects by returning `Except.ok` with the environment unchanged. -/
def execStmt : Stmt → Bindings × Env → Except LoadError (Bindings × Env)
  | Stmt.docstring d, (b, env) => Except.ok (setBinding b "__doc__" (PyValue.str d), env)
  | Stmt.assign n v, (b, env) => Except.ok (setBinding b n v, env)

/-- Execute a list of statements in order, stopping at the first error. -/
def execBody : List Stmt → Bindings × Env → Except LoadError (Bindings × Env)
  | [], st => Except.ok st
  | s :: rest, st => (execStmt s st).bind (execBody rest)

/-- Import the module: run its body from empty bindings in the given
external world. -/
def loadModule (env : Env) : Except LoadError (Bindings × Env) :=
  execBody moduleBody ([], env)

/-- The bindings `src/__init__.py` produces:  `__doc__` and
`WEB_DIRECTORY = "."`. -/
def loadedState : Bindings :=
  [("__doc__", PyValue.str moduleDocstring),
   ("WEB_DIRECTORY", PyValue.str ".")]

/-- `True` for `__name__`-style dunder names: starts and ends with two
underscores. -/
def startsTwoUnderscores : List Char → Bool
  | '_' :: '_' :: _ => true
  | _ => false

/-- A dunder name: starts and ends with `__` (e.g. `__doc__`). -/
def isDunder (n : String) : Bool :=
  startsTwoUnderscores n.data && startsTwoUnderscores n.data.reverse

/-- The public bindings of a module: everything but dunder names.
These are what a host scanning the module's namespace sees as exports. -/
def publicBindings (b : Bindings) : Bindings :=
  b.filter (fun p => !(isDunder p.1))

/-- The `WEB_DIRECTORY` value a host reads after loading the module. -/
def webDirectoryValue (env : Env) : Option PyValue :=
  match loadModule env with
  | Except.ok (b, _) => readBinding b "WEB_DIRECTORY"
  | Except.error _ => none

/-- Does the statement bind the given name when executed? -/
def bindsName (s : Stmt) (n : String) : Bool :=
  match s with
  | Stmt.docstring _ => n = "__doc__"
  | Stmt.assign m _ => m = n

/-- Split a character sequence at `/` separators into path components
(POSIX path syntax). -/
def splitSlash : List Char → List (List Char)
  | [] => [[]]
  | c :: cs =>
    if c = '/' then [] :: splitSlash cs
    else
      match splitSlash cs with
      | [] => [[c]]
      | p :: ps => (c :: p) :: ps

/-- A POSIX path is absolute when it starts with `/`. -/
def isAbsolute (cs : List Char) : Bool :=
  match cs with
  | [] => false
  | c :: _ => c = '/'

/-- The meaningful components of a path: empty components and the
current-directory component `.` do not change the location. -/
def pathComponents (cs : List Char) : List (List Char) :=
  (splitSlash cs).filter (fun c => decide (c ≠ [] ∧ c ≠ ['.']))

/-- Resolve a path string against a base directory (given as a component
list), as the host does with the announced `WEB_DIRECTORY` value: an
absolute path stands alone, a relative one is interpreted from the base. -/
def resolveFrom (base : List (List Char)) (p : String) : List (List Char) :=
  if isAbsolute p.data then pathComponents p.data
  else base ++ pathComponents p.data

/-- String-level path join, as the host's static server performs it
(`base ++ "/" ++ name`). -/
def joinPath (a b : String) : String := a ++ "/" ++ b

/-- A filesystem in which nothing exists at all — no directories, no
files, nothing readable. -/
def noAssetsFS : FileSystem :=
  { isDir := fun _ => false
  , isReadable := fun _ => false
  , fileExists := fun _ => false }

/-- A tiny concrete world: the single directory `a` exists and is
readable, and no file exists. -/
def sampleFS : FileSystem :=
  { isDir := fun p => decide (p = [['a']])
  , isReadable := fun p => decide (p = [['a']])
  , fileExists := fun _ => false }

/-- A concrete external world used to instantiate the theorems. -/
def sampleEnv : Env :=
  { envVars := [], cliArgs := [], persisted := [], fs := sampleFS }

/- ### Helper lemmas -/

/-- Loading the module always succeeds, produces exactly the two
bindings of `loadedState`, and returns the external world unchanged. -/
theorem loadModule_eq (env : Env) :
    loadModule env = Except.ok (loadedState, env) := rfl

/-- Reading `WEB_DIRECTORY` from the loaded bindings gives `"."`. -/
theorem readBinding_web_directory :
    readBinding loadedState "WEB_DIRECTORY" = some (PyValue.str ".") := by
  decide

/-- A character sequence without `/` is a single path component. -/
theorem splitSlash_of_no_slash (f : List Char) (h : '/' ∉ f) :
    splitSlash f = [f] := by
  induction f with
  | nil => rfl
  | cons c cs ih =>
    have hc : ¬ c = '/' := fun e => h (e ▸ List.mem_cons_self c cs)
    have hcs : '/' ∉ cs := fun m => h (List.mem_cons_of_mem c m)
    simp [splitSlash, hc, ih hcs]

/-- Resolving the relative path `"."` against any base directory gives
back that base directory. -/
theorem resolveFrom_dot (base : List (List Char)) :
    resolveFrom base "." = base := by
  have ha : isAbsolute ".".data = false := by decide
  have hc : pathComponents ".".data = [] := by decide
  simp [resolveFrom, ha, hc]

/- ### Claim theorems -/

/-- C1: on load, the module exposes exactly one output to the host — a
single string value bound under the host-recognized symbol
`WEB_DIRECTORY`, whose value `"."` denotes, once resolved, the directory
containing the declaration itself. -/
theorem web_directory_is_sole_export (env : Env) :
    ∃ b, loadModule env = Except.ok (b, env) ∧
      publicBindings b = [("WEB_DIRECTORY", PyValue.str ".")] ∧
      ∀ base, resolveFrom base "." = base := by
  refine ⟨loadedState, loadModule_eq env, by decide, resolveFrom_dot⟩

/-- C2: `WEB_DIRECTORY` is bound by exactly one statement of the module
body, and after load every read of it yields the same path string `"."`
— so any two reads within one process lifetime agree. -/
theorem web_directory_set_once_and_stable (env : Env) :
    moduleBody.countP (fun s => bindsName s "WEB_DIRECTORY") = 1 ∧
    ∃ b, loadModule env = Except.ok (b, env) ∧
      readBinding b "WEB_DIRECTORY" = some (PyValue.str ".") := by
  exact ⟨by decide, loadedState, loadModule_eq env, readBinding_web_directory⟩

/-- C3: importing the module never raises: for every external world,
evaluation of the module body completes normally. -/
theorem module_load_never_raises (env : Env) :
    ∃ st, loadModule env = Except.ok st :=
  ⟨(loadedState, env), loadModule_eq env⟩

/-- C4: the value bound to `WEB_DIRECTORY` is exactly the one-character
relative path string `"."` — not an absolute path — and it is resolved
against the extension's installed location by the host. -/
theorem web_directory_is_relative_dot (env : Env) :
    webDirectoryValue env = some (PyValue.str ".") ∧
    String.length "." = 1 ∧
    isAbsolute ".".data = false ∧
    ∀ base, resolveFrom base "." = base := by
  exact ⟨rfl, by decide, by decide, resolveFrom_dot⟩

/-- C5: the registrar handles no error conditions: with any filesystem
— in particular `noAssetsFS`, where the announced directory does not
exist and `minimap.js` is absent — loading still succeeds and still
binds `WEB_DIRECTORY`; nothing is detected or reported. -/
theorem load_succeeds_without_assets (env : Env) (fs : FileSystem)
    : ∀ base : List (List Char),
    noAssetsFS.isDir base = false ∧
    noAssetsFS.fileExists (resolveFrom base (joinPath "." "minimap.js")) = false ∧
    ∃ b, loadModule { env with fs := fs } = Except.ok (b, { env with fs := fs }) ∧
      readBinding b "WEB_DIRECTORY" = some (PyValue.str ".") := by
  intro base
  exact ⟨rfl, rfl, loadedState, loadModule_eq _, readBinding_web_directory⟩

/-- C6: loading has no side effects beyond the module's own bindings:
the external world (environment variables, CLI arguments, persisted
state, filesystem) comes back exactly as it went in, and only the two
bindings of the module body are created. -/
theorem load_has_no_external_effects (env : Env) :
    loadModule env = Except.ok (loadedState, env) :=
  loadModule_eq env

/-- C7: the exported directory value, resolved against the install
location the host loaded the extension from — which, having been loaded
from, is an existing readable directory — points to an existing,
readable directory on disk. -/
theorem resolved_web_directory_exists_and_readable
    (env : Env) (fs : FileSystem) (installDir : List (List Char))
    (hdir : fs.isDir installDir = true)
    (hread : fs.isReadable installDir = true) :
    ∃ b, loadModule env = Except.ok (b, env) ∧
      readBinding b "WEB_DIRECTORY" = some (PyValue.str ".") ∧
      fs.isDir (resolveFrom installDir ".") = true ∧
      fs.isReadable (resolveFrom installDir ".") = true := by
  refine ⟨loadedState, loadModule_eq env, readBinding_web_directory, ?_, ?_⟩
  · rw [resolveFrom_dot]; exact hdir
  · rw [resolveFrom_dot]; exact hread

/-- Instantiation of C7 at the concrete world `sampleEnv`, where the
directory `a` exists and is readable. -/
theorem resolved_web_directory_exists_and_readable_witness :
    ∃ b, loadModule sampleEnv = Except.ok (b, sampleEnv) ∧
      readBinding b "WEB_DIRECTORY" = some (PyValue.str ".") ∧
      sampleFS.isDir (resolveFrom [['a']] ".") = true ∧
      sampleFS.isReadable (resolveFrom [['a']] ".") = true :=
  resolved_web_directory_exists_and_readable sampleEnv sampleFS [['a']]
    (by decide) (by decide)

/-- C8: path-join correctness: for every plain file name `f` (no `/`,
not empty, not `.`) placed in the announced directory, joining the
announced value `"."` with `f` and resolving against the install
directory locates exactly the file `f` inside that directory, whose
parent is the resolved announced directory itself. -/
theorem path_join_locates_file (base : List (List Char)) (f : String)
    (hns : '/' ∉ f.data) (hne : f.data ≠ []) (hnd : f.data ≠ ['.']) :
    resolveFrom base (joinPath "." f) = base ++ [f.data] ∧
    (resolveFrom base (joinPath "." f)).dropLast = resolveFrom base "." := by
  have hdata : (joinPath "." f).data = '.' :: '/' :: f.data := by
    simp [joinPath, String.data_append]
  have hsplit : splitSlash ('.' :: '/' :: f.data) = [['.'], f.data] := by
    simp [splitSlash, splitSlash_of_no_slash f.data hns]
  have hres : resolveFrom base (joinPath "." f) = base ++ [f.data] := by
    simp [resolveFrom, pathComponents, hdata, isAbsolute, hsplit, hne, hnd]
  refine ⟨hres, ?_⟩
  rw [hres, resolveFrom_dot]
  simp

/-- Instantiation of C8 at the file name `minimap.js` over the base
directory `a`. -/
theorem path_join_locates_file_witness :
    resolveFrom [['a']] (joinPath "." "minimap.js") = [['a']] ++ ["minimap.js".data] ∧
    (resolveFrom [['a']] (joinPath "." "minimap.js")).dropLast = resolveFrom [['a']] "." :=
  path_join_locates_file [['a']] "minimap.js" (by decide) (by decide) (by decide)

/-- C9: the registrar takes no input: whatever the environment
variables, CLI arguments, persisted state or filesystem, two loads
produce identical bindings (determinism / noninterference). -/
theorem load_deterministic_noninterference (env1 env2 : Env) :
    ∃ b, loadModule env1 = Except.ok (b, env1) ∧
      loadModule env2 = Except.ok (b, env2) :=
  ⟨loadedState, loadModule_eq env1, loadModule_eq env2⟩

/-- C10: the module defines exactly the bindings `__doc__` and
`WEB_DIRECTORY`; its only public binding is `WEB_DIRECTORY`, and in
particular no node-class mapping symbols are exported. -/
theorem module_defines_single_public_binding (env : Env) :
    ∃ b, loadModule env = Except.ok (b, env) ∧
      b.map Prod.fst = ["__doc__", "WEB_DIRECTORY"] ∧
      publicBindings b = [("WEB_DIRECTORY", PyValue.str ".")] ∧
      readBinding b "NODE_CLASS_MAPPINGS" = none ∧
      readBinding b "NODE_DISPLAY_NAME_MAPPINGS" = none := by
  refine ⟨loadedState, loadModule_eq env, rfl, by decide, by decide, by decide⟩

end ComfyMinimap
